import Mathlib

/-
Verification of the let-it-snow particle/atmosphere engine.

Shallow embedding of:
  * src/utils/weatherUtils.ts   (getAtmosphere, lerpColor)
  * src/components/SnowCanvas.tsx
      - particle reconciliation useEffect + createParticle
      - the render-loop particle step (movement + wrap)
      - handlePointerDown / handlePointerMove

Modelling conventions:
  * JS numbers are modelled by ℚ where the code only does field arithmetic
    and comparisons (the atmosphere keyframe pipeline), and by ℝ where the
    code calls Math.sin / Math.cos / Math.sqrt (particle motion, hit test,
    celestial positions, star opacity).
  * Hex colour strings like '#020617' are represented by the natural number
    parseInt('020617', 16); lerpColor's result string '#' + v.toString(16)
    .slice(1) is determined by the 32-bit integer v, so we model the colour
    as that integer (string equality follows from integer equality).
  * JS bit operations (<<, | 0) convert through ToInt32: truncate toward
    zero, then wrap into [-2^31, 2^31).
  * Math.random() results are passed in explicitly as a stream of samples
    in [0, 1).
-/

/- ---------------- Atmosphere model (src/utils/weatherUtils.ts) ---------- -/

structure Keyframe where
  time : ℚ
  top : ℕ
  bottom : ℕ
  snow : ℕ
  deriving DecidableEq

def kf0 : Keyframe := ⟨0, 0x020617, 0x0f172a, 0x6366f1⟩

def kf1 : Keyframe := ⟨5, 0x1e1b4b, 0x312e81, 0x818cf8⟩

def kf2 : Keyframe := ⟨6, 0x4c1d95, 0xfb7185, 0xfda4af⟩

def kf3 : Keyframe := ⟨8, 0x3b82f6, 0x93c5fd, 0xffffff⟩

def kf4 : Keyframe := ⟨12, 0x0ea5e9, 0xbae6fd, 0xffffff⟩

def kf5 : Keyframe := ⟨17, 0x3b82f6, 0x60a5fa, 0xffffff⟩

def kf6 : Keyframe := ⟨18.5, 0x4c1d95, 0xf97316, 0xfed7aa⟩

def kf7 : Keyframe := ⟨20, 0x020617, 0x1e1b4b, 0xa5b4fc⟩

def kf8 : Keyframe := ⟨24, 0x020617, 0x0f172a, 0x6366f1⟩

def keyframes : List Keyframe := [kf0, kf1, kf2, kf3, kf4, kf5, kf6, kf7, kf8]

/-- JS ToInt32, step 1: truncation of a (finite) number toward zero. -/
def jsTrunc (x : ℚ) : ℤ := if 0 ≤ x then ⌊x⌋ else -⌊-x⌋

/-- Wrap an integer into the signed 32-bit range, as JS bit operators do. -/
def wrap32 (t : ℤ) : ℤ := (t + 2 ^ 31) % 2 ^ 32 - 2 ^ 31

/-- JS ToInt32 of a (finite) number. -/
def jsToInt32 (x : ℚ) : ℤ := wrap32 (jsTrunc x)

/-- JS left shift `a << k` of an int32 value. -/
def jsShl (a : ℤ) (k : ℕ) : ℤ := wrap32 (a * 2 ^ k)

/-- lerpColor from weatherUtils.ts: channel-wise interpolation of two 24-bit
colours, producing the 32-bit integer `(1 << 24) + (rr << 16) + (rg << 8) + rb | 0`
whose lower hex digits form the output colour string. -/
def lerpColor (a b : ℕ) (t : ℚ) : ℤ :=
  let ar : ℤ := (a / 2 ^ 16 : ℕ)
  let ag : ℤ := (a / 2 ^ 8 % 256 : ℕ)
  let ab : ℤ := (a % 256 : ℕ)
  let br : ℤ := (b / 2 ^ 16 : ℕ)
  let bg : ℤ := (b / 2 ^ 8 % 256 : ℕ)
  let bb : ℤ := (b % 256 : ℕ)
  let rr : ℚ := (ar : ℚ) + t * ((br : ℚ) - (ar : ℚ))
  let rg : ℚ := (ag : ℚ) + t * ((bg : ℚ) - (ag : ℚ))
  let rb : ℚ := (ab : ℚ) + t * ((bb : ℚ) - (ab : ℚ))
  jsToInt32 (2 ^ 24 + ((jsShl (jsToInt32 rr) 16 : ℤ) : ℚ)
    + ((jsShl (jsToInt32 rg) 8 : ℤ) : ℚ) + rb)

/-- The keyframe-bracket search loop: first consecutive pair (a, b) with
a.time ≤ hour ≤ b.time, in table order. -/
def bracketAux (h : ℚ) : List Keyframe → Option (Keyframe × Keyframe)
  | a :: b :: rest =>
    if a.time ≤ h ∧ h ≤ b.time then some (a, b) else bracketAux h (b :: rest)
  | _ => none

/-- start/end keyframes: the loop's result, or its initialisation
(keyframes[0], keyframes[1]) when no interval matched. -/
def bracket (h : ℚ) : Keyframe × Keyframe := (bracketAux h keyframes).getD (kf0, kf1)

def progressAt (h : ℚ) : ℚ :=
  (h - (bracket h).1.time) / ((bracket h).2.time - (bracket h).1.time)

def topColorVal (h : ℚ) : ℤ := lerpColor (bracket h).1.top (bracket h).2.top (progressAt h)

def bottomColorVal (h : ℚ) : ℤ :=
  lerpColor (bracket h).1.bottom (bracket h).2.bottom (progressAt h)

def snowColorVal (h : ℚ) : ℤ := lerpColor (bracket h).1.snow (bracket h).2.snow (progressAt h)

def sunUp (h : ℚ) : Bool := decide (5 < h ∧ h < 20)

def moonUp (h : ℚ) : Bool := decide (19 ≤ h ∨ h ≤ 7)

def dayProgress (h : ℚ) : ℚ := (h - 5) / (20 - 5)

def nightProgress (h : ℚ) : ℚ := if 19 ≤ h then (h - 19) / 12 else (h + 5) / 12

/-- Atmosphere snapshot. skyGradient is the string
`linear-gradient(to bottom, <topColor>, <bottomColor>)`, determined by the
two packed colour integers, so those stand in for it. -/
structure Atmosphere where
  topColor : ℤ
  bottomColor : ℤ
  snowColor : ℤ
  sunX : ℚ
  sunY : ℝ
  sunVisible : Bool
  moonX : ℚ
  moonY : ℝ
  moonVisible : Bool
  starOpacity : ℝ
  sunColor : ℕ
  moonColor : ℕ

noncomputable def getAtmosphere (h : ℚ) : Atmosphere :=
  { topColor := topColorVal h
    bottomColor := bottomColorVal h
    snowColor := snowColorVal h
    sunX := if sunUp h then dayProgress h * 100 else 0
    sunY := if sunUp h then 100 - Real.sin ((dayProgress h : ℝ) * Real.pi) * 80 else 0
    sunVisible := sunUp h
    moonX := if moonUp h then nightProgress h * 100 else 0
    moonY := if moonUp h then 100 - Real.sin ((nightProgress h : ℝ) * Real.pi) * 70 else 0
    moonVisible := moonUp h
    starOpacity :=
      if sunUp h then max 0 (1 - Real.sin (((h : ℝ) - 5) / 15 * Real.pi) * 3) else 1
    sunColor := if 17 < h ∨ h < 7 then 0xf97316 else 0xfde047
    moonColor := 0xf8fafc }

/- ---------------- Particle pool (src/components/SnowCanvas.tsx) ---------- -/

structure Particle where
  x : ℝ
  y : ℝ
  radius : ℝ
  density : ℝ
  vx : ℝ
  vy : ℝ

instance : Inhabited Particle := ⟨⟨0, 0, 0, 0, 0, 0⟩⟩

/-- SnowSettings from src/types.ts, restricted to the numeric fields the
core components read (the colour string is represented by its packed value). -/
structure SnowSettings where
  particleCount : ℤ
  minSize : ℝ
  maxSize : ℝ
  fallSpeed : ℝ
  windSpeed : ℝ
  opacity : ℝ
  color : ℕ
  timeOfDay : ℝ

/-- createParticle, with the six Math.random() samples passed explicitly. -/
noncomputable def createParticle (w h smin smax r1 r2 r3 r4 r5 r6 : ℝ) : Particle :=
  { x := r1 * w
    y := r2 * h
    radius := r3 * (smax - smin) + smin
    density := r4 * 200
    vx := (r5 - 0.5) * 0.5
    vy := r6 * 0.5 + 0.5 }

/-- The per-particle radius clamp of the reconciliation effect:
`if (p.radius > maxSize) p.radius = maxSize; if (p.radius < minSize) p.radius = minSize;`. -/
noncomputable def clampRadius (smin smax : ℝ) (p : Particle) : Particle :=
  let r1 := if p.radius > smax then smax else p.radius
  let r2 := if r1 < smin then smin else r1
  { p with radius := r2 }

/-- Number of leading elements JS `arr.splice(start)` keeps: a negative
start counts from the end (actualStart = max(len + start, 0)), a
non-negative one is capped at len (actualStart = min(start, len)). -/
def jsSpliceKeep (len : ℕ) (t : ℤ) : ℕ :=
  if t < 0 then (max ((len : ℤ) + t) 0).toNat else min t.toNat len

/-- The count-adjustment phase of the reconciliation useEffect: grow by
pushing fresh particles, or shrink via `splice(targetCount)`. `rnd` is the
Math.random() stream; the k-th new particle consumes samples 6k..6k+5. -/
noncomputable def grownPool (pool : List Particle) (target : ℤ) (smin smax w h : ℝ)
    (rnd : ℕ → ℝ) : List Particle :=
  if (pool.length : ℤ) < target then
    pool ++ (List.range (target - pool.length).toNat).map (fun k =>
      createParticle w h smin smax (rnd (6 * k)) (rnd (6 * k + 1)) (rnd (6 * k + 2))
        (rnd (6 * k + 3)) (rnd (6 * k + 4)) (rnd (6 * k + 5)))
  else if (pool.length : ℤ) > target then
    pool.take (jsSpliceKeep pool.length target)
  else pool

/-- The particle reconciliation useEffect: adjust the count, then clamp
every radius into [minSize, maxSize]. -/
noncomputable def reconcile (pool : List Particle) (target : ℤ) (smin smax w h : ℝ)
    (rnd : ℕ → ℝ) : List Particle :=
  (grownPool pool target smin smax w h rnd).map (clampRadius smin smax)

/- ---------------- Simulation step (render loop body) --------------------- -/

/-- One render-loop iteration for particle index i: movement, then the
wrap checks in statement order, each reading the value left by the
previous statement (x1 is p.x after the movement line, x2 after the first
wrap if, x3 after the second; the vertical wrap overwrites both
coordinates). `r` is the Math.random() sample used if the vertical wrap
fires. -/
noncomputable def moveParticle (s : SnowSettings) (w h : ℝ) (i : ℕ) (r : ℝ)
    (p : Particle) : Particle :=
  let x1 := p.x + Real.sin (p.density + i) * 0.3 + s.windSpeed + p.vx
  let y1 := p.y + (Real.cos (p.density + i) * 0.1 + s.fallSpeed + p.vy)
  let x2 := if x1 > w + 20 then -20 else x1
  let x3 := if x2 < -20 then w + 20 else x2
  if y1 > h + 20 then ⟨r * w, -20, p.radius, p.density, p.vx, p.vy⟩
  else ⟨x3, y1, p.radius, p.density, p.vx, p.vy⟩

/-- The render loop's particle pass, indexing particles from `k` upward. -/
noncomputable def tickAux (s : SnowSettings) (w h : ℝ) (rnd : ℕ → ℝ) :
    ℕ → List Particle → List Particle
  | _, [] => []
  | k, p :: rest => moveParticle s w h k (rnd k) p :: tickAux s w h rnd (k + 1) rest

/-- One tick of the render loop over the whole pool. -/
noncomputable def tick (s : SnowSettings) (w h : ℝ) (rnd : ℕ → ℝ)
    (pool : List Particle) : List Particle :=
  tickAux s w h rnd 0 pool

/- ---------------- Interaction controller --------------------------------- -/

/-- The hit test of handlePointerDown:
`Math.hypot(p.x - x, p.y - y) < Math.max(p.radius * 2, 15)`. -/
def hitTest (p : Particle) (x y : ℝ) : Prop :=
  Real.sqrt ((p.x - x) ^ 2 + (p.y - y) ^ 2) < max (p.radius * 2) 15

/-- Canvas component state relevant to the pointer handlers. -/
structure CanvasState where
  pool : List Particle
  settings : SnowSettings
  dragging : Bool
  lastMouseX : ℝ

open Classical in
/-- The backward scan of handlePointerDown: tries indices n-1, n-2, ..., 0
and returns the first (largest) index whose particle passes the hit test. -/
noncomputable def popScanAux (pool : List Particle) (x y : ℝ) : ℕ → Option ℕ
  | 0 => none
  | n + 1 =>
    if hitTest (pool.getD n default) x y then some n else popScanAux pool x y n

noncomputable def popScan (pool : List Particle) (x y : ℝ) : Option ℕ :=
  popScanAux pool x y pool.length

/-- handlePointerDown: pop the topmost hit particle and decrement the
particle count (floored at 0), or start a drag remembering e.clientX. -/
noncomputable def handlePointerDown (st : CanvasState) (clientX clientY rectLeft rectTop : ℝ) :
    CanvasState :=
  let x := clientX - rectLeft
  let y := clientY - rectTop
  match popScan st.pool x y with
  | some i =>
    { st with
      pool := st.pool.eraseIdx i
      settings := { st.settings with
        particleCount := max 0 (st.settings.particleCount - 1) } }
  | none => { st with dragging := true, lastMouseX := clientX }

/-- handlePointerMove: while dragging, push lastMouseX forward and clamp the
wind speed updated by deltaX * 0.05 into [-15, 15]. -/
noncomputable def handlePointerMove (st : CanvasState) (clientX : ℝ) : CanvasState :=
  if st.dragging then
    let deltaX := clientX - st.lastMouseX
    { st with
      lastMouseX := clientX
      settings := { st.settings with
        windSpeed := max (-15) (min 15 (st.settings.windSpeed + deltaX * 0.05)) } }
  else st

/- ---------------- Helper lemmas ----------------------------------------- -/

lemma bracketAux_none_of_neg (h : ℚ) (hneg : h < 0) :
    ∀ l : List Keyframe, (∀ kf ∈ l, 0 ≤ kf.time) → bracketAux h l = none := by
  intro l
  induction l with
  | nil => intro _; rfl
  | cons a t ih =>
    intro hall
    cases t with
    | nil => rfl
    | cons b t2 =>
      show bracketAux h (a :: b :: t2) = none
      rw [bracketAux, if_neg]
      · exact ih fun kf hkf => hall kf (List.mem_cons_of_mem a hkf)
      · rintro ⟨h1, _⟩
        have := hall a (List.mem_cons_self a _)
        linarith

lemma bracketAux_none_of_gt (h : ℚ) (hgt : 24 < h) :
    ∀ l : List Keyframe, (∀ kf ∈ l, kf.time ≤ 24) → bracketAux h l = none := by
  intro l
  induction l with
  | nil => intro _; rfl
  | cons a t ih =>
    intro hall
    cases t with
    | nil => rfl
    | cons b t2 =>
      show bracketAux h (a :: b :: t2) = none
      rw [bracketAux, if_neg]
      · exact ih fun kf hkf => hall kf (List.mem_cons_of_mem a hkf)
      · rintro ⟨_, h2⟩
        have := hall b (List.mem_cons_of_mem a (List.mem_cons_self b _))
        linarith

lemma keyframes_time_nonneg : ∀ kf ∈ keyframes, 0 ≤ kf.time := by
  intro kf hkf
  simp only [keyframes, List.mem_cons, List.not_mem_nil, or_false] at hkf
  rcases hkf with rfl | rfl | rfl | rfl | rfl | rfl | rfl | rfl | rfl <;>
    norm_num [kf0, kf1, kf2, kf3, kf4, kf5, kf6, kf7, kf8]

lemma keyframes_time_le : ∀ kf ∈ keyframes, kf.time ≤ 24 := by
  intro kf hkf
  simp only [keyframes, List.mem_cons, List.not_mem_nil, or_false] at hkf
  rcases hkf with rfl | rfl | rfl | rfl | rfl | rfl | rfl | rfl | rfl <;>
    norm_num [kf0, kf1, kf2, kf3, kf4, kf5, kf6, kf7, kf8]

lemma sunUp_iff (h : ℚ) : sunUp h = true ↔ 5 < h ∧ h < 20 := by
  simp [sunUp]

lemma clampRadius_radius_bounds (smin smax : ℝ) (hms : smin ≤ smax) (p : Particle) :
    smin ≤ (clampRadius smin smax p).radius ∧ (clampRadius smin smax p).radius ≤ smax := by
  unfold clampRadius
  dsimp only
  split_ifs <;> constructor <;> linarith

lemma clampRadius_eq_self (smin smax : ℝ) (p : Particle)
    (h1 : smin ≤ p.radius) (h2 : p.radius ≤ smax) : clampRadius smin smax p = p := by
  unfold clampRadius
  dsimp only
  rw [if_neg (not_lt.mpr h2), if_neg (not_lt.mpr h1)]

lemma grownPool_length (pool : List Particle) (target : ℤ) (smin smax w h : ℝ)
    (rnd : ℕ → ℝ) (ht : 0 ≤ target) :
    (grownPool pool target smin smax w h rnd).length = target.toNat := by
  unfold grownPool
  split_ifs with hlt hgt
  · rw [List.length_append, List.length_map, List.length_range]
    omega
  · rw [List.length_take]
    unfold jsSpliceKeep
    rw [if_neg (by omega)]
    omega
  · omega

lemma reconcile_length (pool : List Particle) (target : ℤ) (smin smax w h : ℝ)
    (rnd : ℕ → ℝ) (ht : 0 ≤ target) :
    (reconcile pool target smin smax w h rnd).length = target.toNat := by
  rw [reconcile, List.length_map, grownPool_length pool target smin smax w h rnd ht]

lemma reconcile_radius_bounds (pool : List Particle) (target : ℤ) (smin smax w h : ℝ)
    (rnd : ℕ → ℝ) (hms : smin ≤ smax) :
    ∀ p ∈ reconcile pool target smin smax w h rnd, smin ≤ p.radius ∧ p.radius ≤ smax := by
  intro p hp
  rw [reconcile] at hp
  rcases List.mem_map.mp hp with ⟨q, _, rfl⟩
  exact clampRadius_radius_bounds smin smax hms q

lemma tickAux_getElem (s : SnowSettings) (w h : ℝ) (rnd : ℕ → ℝ) :
    ∀ (pool : List Particle) (k i : ℕ),
      (tickAux s w h rnd k pool)[i]?
        = pool[i]?.map (fun p => moveParticle s w h (k + i) (rnd (k + i)) p) := by
  intro pool
  induction pool with
  | nil => intro k i; simp [tickAux]
  | cons p rest ih =>
    intro k i
    cases i with
    | zero => simp [tickAux]
    | succ n =>
      show (tickAux s w h rnd k (p :: rest))[n + 1]? = _
      rw [tickAux, List.getElem?_cons_succ, ih (k + 1) n,
        show k + 1 + n = k + (n + 1) by omega, List.getElem?_cons_succ]

lemma moonUp_iff (h : ℚ) : moonUp h = true ↔ 19 ≤ h ∨ h ≤ 7 := by
  simp [moonUp]

/- ---------------- Claim theorems ---------------------------------------- -/

/-- C5: getAtmosphere(0) and getAtmosphere(24) return bit-identical
snapshots: the same packed sky-gradient colours, snow colour, sun
position/visibility, moon position/visibility, star opacity, sun tint and
moon tint. -/
theorem getAtmosphere_midnight_wrap : getAtmosphere 0 = getAtmosphere 24 := by
  have hsun0 : sunUp 0 = false := by rw [sunUp, decide_eq_false_iff_not]; norm_num
  have hsun24 : sunUp 24 = false := by rw [sunUp, decide_eq_false_iff_not]; norm_num
  have hmoon0 : moonUp 0 = true := by rw [moonUp, decide_eq_true_eq]; norm_num
  have hmoon24 : moonUp 24 = true := by rw [moonUp, decide_eq_true_eq]; norm_num
  have hnp : nightProgress 0 = nightProgress 24 := by
    rw [nightProgress, nightProgress, if_neg (by norm_num), if_pos (by norm_num)]
    norm_num
  simp only [getAtmosphere, Atmosphere.mk.injEq, hsun0, hsun24, hmoon0, hmoon24, hnp]
  refine ⟨?_, ?_, ?_, ?_, ?_, ?_, ?_, ?_⟩
  · norm_num [topColorVal, lerpColor, bracket, bracketAux, keyframes, kf0, kf1, kf2, kf3,
      kf4, kf5, kf6, kf7, kf8, progressAt, jsToInt32, jsTrunc, wrap32, jsShl]
  · norm_num [bottomColorVal, lerpColor, bracket, bracketAux, keyframes, kf0, kf1, kf2, kf3,
      kf4, kf5, kf6, kf7, kf8, progressAt, jsToInt32, jsTrunc, wrap32, jsShl]
  · norm_num [snowColorVal, lerpColor, bracket, bracketAux, keyframes, kf0, kf1, kf2, kf3,
      kf4, kf5, kf6, kf7, kf8, progressAt, jsToInt32, jsTrunc, wrap32, jsShl]
  · simp
  · simp
  · simp
  · simp
  · norm_num

/-- C4: for every hour in [0,24], the sun is visible iff 5 < hour < 20, the
moon is visible iff hour ≥ 19 or hour ≤ 7, star opacity equals
max(0, 1 - 3·sin(((hour-5)/15)·π)) when the sun is visible and exactly 1
otherwise, and star opacity always lies in [0,1]. -/
theorem atmosphere_visibility_starOpacity (h : ℚ) (h0 : 0 ≤ h) (h24 : h ≤ 24) :
    ((getAtmosphere h).sunVisible = true ↔ 5 < h ∧ h < 20)
    ∧ ((getAtmosphere h).moonVisible = true ↔ 19 ≤ h ∨ h ≤ 7)
    ∧ ((getAtmosphere h).sunVisible = true →
        (getAtmosphere h).starOpacity
          = max 0 (1 - 3 * Real.sin (((h : ℝ) - 5) / 15 * Real.pi)))
    ∧ ((getAtmosphere h).sunVisible = false → (getAtmosphere h).starOpacity = 1)
    ∧ 0 ≤ (getAtmosphere h).starOpacity ∧ (getAtmosphere h).starOpacity ≤ 1 := by
  have hb : ∀ hq : ℚ, 5 < hq ∧ hq < 20 →
      0 ≤ Real.sin (((hq : ℝ) - 5) / 15 * Real.pi) := by
    rintro hq ⟨h5, h20⟩
    have h5r : (5 : ℝ) < (hq : ℝ) := by exact_mod_cast h5
    have h20r : (hq : ℝ) < 20 := by exact_mod_cast h20
    have harg0 : 0 ≤ ((hq : ℝ) - 5) / 15 * Real.pi := by
      apply mul_nonneg _ Real.pi_pos.le
      linarith
    have harg1 : ((hq : ℝ) - 5) / 15 * Real.pi ≤ Real.pi := by
      apply mul_le_of_le_one_left Real.pi_pos.le
      linarith
    exact Real.sin_nonneg_of_nonneg_of_le_pi harg0 harg1
  refine ⟨?_, ?_, ?_, ?_, ?_, ?_⟩
  · exact sunUp_iff h
  · exact moonUp_iff h
  · intro hv
    have hv' : sunUp h = true := hv
    show (if sunUp h then _ else _) = _
    rw [if_pos hv']
    congr 1
    ring
  · intro hv
    have hv' : sunUp h = false := hv
    show (if sunUp h then _ else _) = _
    rw [if_neg (by simp [hv'])]
  · show 0 ≤ (if sunUp h then _ else _)
    split
    · exact le_max_left 0 _
    · norm_num
  · show (if sunUp h then _ else _) ≤ 1
    split
    · next hv =>
      apply max_le (by norm_num)
      have hs := hb h ((sunUp_iff h).mp hv)
      nlinarith
    · norm_num

/-- C4 witness: the theorem instantiated at hour 0 (sun down, moon up,
star opacity 1). -/
theorem atmosphere_visibility_starOpacity_witness :
    (0 : ℚ) ≤ 0 ∧ (0 : ℚ) ≤ 24
    ∧ (((getAtmosphere 0).sunVisible = true ↔ 5 < (0 : ℚ) ∧ (0 : ℚ) < 20)
      ∧ ((getAtmosphere 0).moonVisible = true ↔ 19 ≤ (0 : ℚ) ∨ (0 : ℚ) ≤ 7)
      ∧ ((getAtmosphere 0).sunVisible = true →
          (getAtmosphere 0).starOpacity
            = max 0 (1 - 3 * Real.sin ((((0 : ℚ) : ℝ) - 5) / 15 * Real.pi)))
      ∧ ((getAtmosphere 0).sunVisible = false → (getAtmosphere 0).starOpacity = 1)
      ∧ 0 ≤ (getAtmosphere 0).starOpacity ∧ (getAtmosphere 0).starOpacity ≤ 1) :=
  ⟨le_refl 0, by norm_num, atmosphere_visibility_starOpacity 0 (le_refl 0) (by norm_num)⟩

/-- C10: for every hour in [0,24], at least one of the sun and the moon is
visible: the windows (5,20) and [19,24] ∪ [0,7] cover [0,24]. -/
theorem sun_or_moon_always_visible (h : ℚ) (h0 : 0 ≤ h) (h24 : h ≤ 24) :
    (getAtmosphere h).sunVisible = true ∨ (getAtmosphere h).moonVisible = true := by
  rcases le_or_lt h 7 with hc | hc
  · exact Or.inr ((moonUp_iff h).mpr (Or.inr hc))
  · rcases le_or_lt 19 h with hd | hd
    · exact Or.inr ((moonUp_iff h).mpr (Or.inl hd))
    · exact Or.inl ((sunUp_iff h).mpr ⟨by linarith, by linarith⟩)

/-- C10 witness: the theorem instantiated at noon. -/
theorem sun_or_moon_always_visible_witness :
    (0 : ℚ) ≤ 12 ∧ (12 : ℚ) ≤ 24
    ∧ ((getAtmosphere 12).sunVisible = true ∨ (getAtmosphere 12).moonVisible = true) :=
  ⟨by norm_num, by norm_num, sun_or_moon_always_visible 12 (by norm_num) (by norm_num)⟩

/-- C3 counterexample: getAtmosphere does not clamp its input; the snapshot
at hour 25 differs from the one at hour 24 (already in its snow colour), so
out-of-range hours are not mapped to the clamped boundary. -/
theorem getAtmosphere_out_of_range_cex : getAtmosphere 25 ≠ getAtmosphere 24 := by
  intro hEq
  have hsnow := congrArg Atmosphere.snowColor hEq
  simp only [getAtmosphere] at hsnow
  have hne : snowColorVal 25 ≠ snowColorVal 24 := by
    norm_num [snowColorVal, lerpColor, bracket, bracketAux, keyframes, kf0, kf1, kf2, kf3,
      kf4, kf5, kf6, kf7, kf8, progressAt, jsToInt32, jsTrunc, wrap32, jsShl]
  exact hne hsnow

/-- C3 amended: getAtmosphere performs no clamping of hour. For any hour
outside [0,24] the keyframe search matches no interval, so the colour
pipeline falls back to the loop's initialisation, the first keyframe pair
(times 0 and 5), and extrapolates with unclamped progress hour/5; the
result is still a totally defined snapshot, but it need not agree with the
snapshot at the nearest boundary (see the counterexample at hour 25). -/
theorem bracket_fallback_out_of_range (h : ℚ) (hout : h < 0 ∨ 24 < h) :
    bracket h = (kf0, kf1) ∧ progressAt h = h / 5 := by
  have hnone : bracketAux h keyframes = none := by
    rcases hout with hneg | hgt
    · exact bracketAux_none_of_neg h hneg keyframes keyframes_time_nonneg
    · exact bracketAux_none_of_gt h hgt keyframes keyframes_time_le
  have hbr : bracket h = (kf0, kf1) := by rw [bracket, hnone]; rfl
  refine ⟨hbr, ?_⟩
  rw [progressAt, hbr]
  norm_num [kf0, kf1]

/-- C3 amended witness: the fallback at hour 25. -/
theorem bracket_fallback_out_of_range_witness :
    ((25 : ℚ) < 0 ∨ (24 : ℚ) < 25)
    ∧ (bracket 25 = (kf0, kf1) ∧ progressAt 25 = 25 / 5) :=
  ⟨Or.inr (by norm_num), bracket_fallback_out_of_range 25 (Or.inr (by norm_num))⟩

/-- C2: for every pool, targetCount ≥ 0 and minSize ≤ maxSize, after
reconciliation the pool length equals targetCount, every radius lies in
[minSize, maxSize], pre-existing particles keep their (clamped) state, and
each newly created particle gets radius rnd·(maxSize − minSize) + minSize,
a uniformly random value in [minSize, maxSize]. -/
theorem reconcile_invariant (pool : List Particle) (target : ℤ) (smin smax w h : ℝ)
    (rnd : ℕ → ℝ) (ht : 0 ≤ target) (hms : smin ≤ smax)
    (hrnd : ∀ n, 0 ≤ rnd n ∧ rnd n < 1) :
    ((reconcile pool target smin smax w h rnd).length : ℤ) = target
    ∧ (∀ p ∈ reconcile pool target smin smax w h rnd, smin ≤ p.radius ∧ p.radius ≤ smax)
    ∧ (∀ (i : ℕ) (p : Particle), (i : ℤ) < target → pool[i]? = some p →
        (reconcile pool target smin smax w h rnd)[i]? = some (clampRadius smin smax p))
    ∧ (∀ k : ℕ, ((pool.length + k : ℕ) : ℤ) < target →
        ((reconcile pool target smin smax w h rnd)[pool.length + k]?).map Particle.radius
          = some (rnd (6 * k + 2) * (smax - smin) + smin)) := by
  refine ⟨?_, reconcile_radius_bounds pool target smin smax w h rnd hms, ?_, ?_⟩
  · rw [reconcile_length pool target smin smax w h rnd ht]
    omega
  · intro i p hi hp
    have hil : i < pool.length := (List.getElem?_eq_some.mp hp).1
    rw [reconcile, List.getElem?_map]
    have hg : (grownPool pool target smin smax w h rnd)[i]? = some p := by
      unfold grownPool
      split_ifs with hlt hgt
      · rw [List.getElem?_append, if_pos hil]
        exact hp
      · rw [List.getElem?_take, if_pos]
        · exact hp
        · unfold jsSpliceKeep
          rw [if_neg (by omega)]
          omega
      · exact hp
    rw [hg]
    rfl
  · intro k hk
    have hlt : (pool.length : ℤ) < target := by omega
    rcases hrnd (6 * k + 2) with ⟨hr0, hr1⟩
    have hd : 0 ≤ smax - smin := by linarith
    have hge : smin ≤ rnd (6 * k + 2) * (smax - smin) + smin := by nlinarith
    have hle : rnd (6 * k + 2) * (smax - smin) + smin ≤ smax := by nlinarith
    rw [reconcile, List.getElem?_map]
    unfold grownPool
    rw [if_pos hlt, List.getElem?_append_right (Nat.le_add_right pool.length k),
      Nat.add_sub_cancel_left, List.getElem?_map,
      List.getElem?_range (show k < (target - (pool.length : ℤ)).toNat by omega)]
    simp only [Option.map_some']
    rw [clampRadius_eq_self smin smax _ (by simpa [createParticle] using hge)
      (by simpa [createParticle] using hle)]
    simp [createParticle]

/-- C2 witness: growing the empty pool to one particle with radius bounds
[1, 4]. -/
theorem reconcile_invariant_witness :
    (0 : ℤ) ≤ 1 ∧ (1 : ℝ) ≤ 4 ∧ (∀ n : ℕ, (0 : ℝ) ≤ (fun _ => (1 : ℝ) / 2) n
      ∧ (fun _ => (1 : ℝ) / 2) n < 1)
    ∧ (((reconcile [] 1 1 4 100 100 (fun _ => 1 / 2)).length : ℤ) = 1
      ∧ (∀ p ∈ reconcile [] 1 1 4 100 100 (fun _ => 1 / 2),
          (1 : ℝ) ≤ p.radius ∧ p.radius ≤ 4)
      ∧ (∀ (i : ℕ) (p : Particle), (i : ℤ) < 1 → ([] : List Particle)[i]? = some p →
          (reconcile [] 1 1 4 100 100 (fun _ => 1 / 2))[i]? = some (clampRadius 1 4 p))
      ∧ (∀ k : ℕ, ((List.length ([] : List Particle) + k : ℕ) : ℤ) < 1 →
          ((reconcile [] 1 1 4 100 100 (fun _ => 1 / 2))[List.length ([] : List Particle) + k]?).map
            Particle.radius = some ((1 : ℝ) / 2 * (4 - 1) + 1))) :=
  ⟨by norm_num, by norm_num, fun n => ⟨by norm_num, by norm_num⟩,
    reconcile_invariant [] 1 1 4 100 100 (fun _ => 1 / 2) (by norm_num) (by norm_num)
      (fun n => ⟨by norm_num, by norm_num⟩)⟩

/-- C8: the claim says a negative particleCount is floored to 0 so the pool
ends up empty; the code instead passes the negative count straight to
`Array.prototype.splice`, which treats it as an offset from the end. With a
pool of two particles and particleCount = −1, reconciliation keeps one
particle instead of zero. -/
theorem reconcile_negative_target_splice :
    (reconcile [⟨1, 1, 1.5, 0, 0, 0.6⟩, ⟨2, 2, 1.5, 0, 0, 0.6⟩] (-1) 1 2 10 10
      (fun _ => 1 / 2)).length = 1 := by
  rw [reconcile, List.length_map]
  unfold grownPool
  rw [if_neg (by norm_num), if_pos (by norm_num)]
  unfold jsSpliceKeep
  rw [if_pos (by norm_num)]
  norm_num [List.length_take]

/-- C9: reconciliation is idempotent: when targetCount ≥ 0 and
minSize ≤ maxSize, a second run with the same arguments changes nothing. -/
theorem reconcile_idempotent (pool : List Particle) (target : ℤ) (smin smax w h : ℝ)
    (rnd : ℕ → ℝ) (ht : 0 ≤ target) (hms : smin ≤ smax) :
    reconcile (reconcile pool target smin smax w h rnd) target smin smax w h rnd
      = reconcile pool target smin smax w h rnd := by
  have hlen : ((reconcile pool target smin smax w h rnd).length : ℤ) = target := by
    rw [reconcile_length pool target smin smax w h rnd ht]
    omega
  have hbounds := reconcile_radius_bounds pool target smin smax w h rnd hms
  conv_lhs => rw [reconcile]
  rw [show grownPool (reconcile pool target smin smax w h rnd) target smin smax w h rnd
      = reconcile pool target smin smax w h rnd by
    unfold grownPool
    rw [if_neg (by omega), if_neg (by omega)]]
  calc (reconcile pool target smin smax w h rnd).map (clampRadius smin smax)
      = (reconcile pool target smin smax w h rnd).map id :=
        List.map_congr_left fun p hp =>
          clampRadius_eq_self smin smax p (hbounds p hp).1 (hbounds p hp).2
    _ = reconcile pool target smin smax w h rnd := List.map_id _

/-- C9 witness: double reconciliation of the empty pool to one particle. -/
theorem reconcile_idempotent_witness :
    (0 : ℤ) ≤ 1 ∧ (1 : ℝ) ≤ 4
    ∧ reconcile (reconcile [] 1 1 4 100 100 (fun _ => 1 / 2)) 1 1 4 100 100 (fun _ => 1 / 2)
      = reconcile [] 1 1 4 100 100 (fun _ => 1 / 2) :=
  ⟨by norm_num, by norm_num,
    reconcile_idempotent [] 1 1 4 100 100 (fun _ => 1 / 2) (by norm_num) (by norm_num)⟩

/-- C1: one tick updates particle i to x += sin(density+i)·0.3 + windSpeed
+ vx and y += cos(density+i)·0.1 + fallSpeed + vy, then wraps within the
same tick: x > width+20 resets x to −20, x < −20 resets x to width+20, and
y > height+20 resets y to −20 and reassigns x a fresh random value in
[0, width); radius, density, vx and vy are untouched. -/
theorem tick_step_formula (s : SnowSettings) (w h : ℝ) (rnd : ℕ → ℝ)
    (pool : List Particle) (i : ℕ) (p : Particle)
    (hp : pool[i]? = some p) (hrnd : ∀ n, 0 ≤ rnd n ∧ rnd n < 1) (hw : 0 < w) :
    (tick s w h rnd pool)[i]?
      = some (
        if p.y + (Real.cos (p.density + i) * 0.1 + s.fallSpeed + p.vy) > h + 20 then
          ⟨rnd i * w, -20, p.radius, p.density, p.vx, p.vy⟩
        else if p.x + Real.sin (p.density + i) * 0.3 + s.windSpeed + p.vx > w + 20 then
          ⟨-20, p.y + (Real.cos (p.density + i) * 0.1 + s.fallSpeed + p.vy),
            p.radius, p.density, p.vx, p.vy⟩
        else if p.x + Real.sin (p.density + i) * 0.3 + s.windSpeed + p.vx < -20 then
          ⟨w + 20, p.y + (Real.cos (p.density + i) * 0.1 + s.fallSpeed + p.vy),
            p.radius, p.density, p.vx, p.vy⟩
        else
          ⟨p.x + Real.sin (p.density + i) * 0.3 + s.windSpeed + p.vx,
            p.y + (Real.cos (p.density + i) * 0.1 + s.fallSpeed + p.vy),
            p.radius, p.density, p.vx, p.vy⟩)
    ∧ 0 ≤ rnd i * w ∧ rnd i * w < w := by
  rcases hrnd i with ⟨hr0, hr1⟩
  refine ⟨?_, mul_nonneg hr0 hw.le, ?_⟩
  · rw [tick, tickAux_getElem s w h rnd pool 0 i, hp]
    simp only [Nat.zero_add, Option.map_some']
    congr 1
    simp only [moveParticle]
    split_ifs <;> first | rfl | (exfalso; linarith)
  · have := mul_lt_mul_of_pos_right hr1 hw
    linarith

/-- C1 witness: a single particle with density 0 at the origin, wind 1,
fall speed 1, no wrap triggered. -/
theorem tick_step_formula_witness :
    ([(⟨0, 0, 2, 0, 0.1, 0.7⟩ : Particle)][0]? = some (⟨0, 0, 2, 0, 0.1, 0.7⟩ : Particle))
    ∧ (∀ n : ℕ, (0 : ℝ) ≤ (fun _ => (1 : ℝ) / 2) n ∧ (fun _ => (1 : ℝ) / 2) n < 1)
    ∧ (0 : ℝ) < 100
    ∧ (tick ⟨1000, 1, 4, 1, 1, 0.8, 0xffffff, 12⟩ 100 100 (fun _ => 1 / 2)
        [⟨0, 0, 2, 0, 0.1, 0.7⟩])[0]? = some (⟨1.1, 1.8, 2, 0, 0.1, 0.7⟩ : Particle) := by
  refine ⟨rfl, fun n => ⟨by norm_num, by norm_num⟩, by norm_num, ?_⟩
  have hmain := (tick_step_formula ⟨1000, 1, 4, 1, 1, 0.8, 0xffffff, 12⟩ 100 100
    (fun _ => 1 / 2) [⟨0, 0, 2, 0, 0.1, 0.7⟩] 0 ⟨0, 0, 2, 0, 0.1, 0.7⟩ rfl
    (fun n => ⟨by norm_num, by norm_num⟩) (by norm_num)).1
  rw [hmain]
  have hcos : Real.cos ((0 : ℝ) + (0 : ℕ)) = 1 := by norm_num
  have hsin : Real.sin ((0 : ℝ) + (0 : ℕ)) = 0 := by norm_num
  rw [if_neg (by rw [hcos]; norm_num), if_neg (by rw [hsin]; norm_num),
    if_neg (by rw [hsin]; norm_num)]
  rw [hsin, hcos]
  norm_num

lemma popScanAux_some (pool : List Particle) (x y : ℝ) :
    ∀ n i, popScanAux pool x y n = some i →
      i < n ∧ hitTest (pool.getD i default) x y
        ∧ ∀ j, i < j → j < n → ¬hitTest (pool.getD j default) x y := by
  intro n
  induction n with
  | zero => intro i hi; simp [popScanAux] at hi
  | succ m ih =>
    intro i hi
    rw [popScanAux] at hi
    by_cases hh : hitTest (pool.getD m default) x y
    · rw [if_pos hh] at hi
      obtain rfl : m = i := by simpa using hi
      exact ⟨Nat.lt_succ_self m, hh, fun j hj1 hj2 _ => by omega⟩
    · rw [if_neg hh] at hi
      obtain ⟨h1, h2, h3⟩ := ih i hi
      refine ⟨by omega, h2, fun j hj1 hj2 => ?_⟩
      by_cases hjm : j = m
      · exact hjm ▸ hh
      · exact h3 j hj1 (by omega)

lemma popScanAux_none (pool : List Particle) (x y : ℝ) :
    ∀ n, popScanAux pool x y n = none →
      ∀ j, j < n → ¬hitTest (pool.getD j default) x y := by
  intro n
  induction n with
  | zero => intro _ j hj; omega
  | succ m ih =>
    intro hn j hj
    rw [popScanAux] at hn
    by_cases hh : hitTest (pool.getD m default) x y
    · rw [if_pos hh] at hn; exact absurd hn (by simp)
    · rw [if_neg hh] at hn
      by_cases hjm : j = m
      · exact hjm ▸ hh
      · exact ih hn j (by omega)

/-- C6: a pointer press scans the pool from the most recently inserted
particle backward; the first particle within max(radius·2, 15) of the
press point is removed (exactly one), particleCount is decremented by 1
floored at 0, and no drag starts; if no particle matches, pool and
settings are untouched and a drag begins with lastMouseX = clientX. -/
theorem pointerDown_pop_or_drag (st : CanvasState) (clientX clientY rectLeft rectTop : ℝ) :
    (∀ i, popScan st.pool (clientX - rectLeft) (clientY - rectTop) = some i →
      i < st.pool.length
      ∧ hitTest (st.pool.getD i default) (clientX - rectLeft) (clientY - rectTop)
      ∧ (∀ j, i < j → j < st.pool.length →
          ¬hitTest (st.pool.getD j default) (clientX - rectLeft) (clientY - rectTop))
      ∧ (handlePointerDown st clientX clientY rectLeft rectTop).pool = st.pool.eraseIdx i
      ∧ (handlePointerDown st clientX clientY rectLeft rectTop).pool.length
          = st.pool.length - 1
      ∧ (handlePointerDown st clientX clientY rectLeft rectTop).settings.particleCount
          = max 0 (st.settings.particleCount - 1)
      ∧ (handlePointerDown st clientX clientY rectLeft rectTop).dragging = st.dragging)
    ∧ (popScan st.pool (clientX - rectLeft) (clientY - rectTop) = none →
      (∀ j, j < st.pool.length →
        ¬hitTest (st.pool.getD j default) (clientX - rectLeft) (clientY - rectTop))
      ∧ (handlePointerDown st clientX clientY rectLeft rectTop).pool = st.pool
      ∧ (handlePointerDown st clientX clientY rectLeft rectTop).settings = st.settings
      ∧ (handlePointerDown st clientX clientY rectLeft rectTop).dragging = true
      ∧ (handlePointerDown st clientX clientY rectLeft rectTop).lastMouseX = clientX) := by
  constructor
  · intro i hsome
    obtain ⟨hlt, hhit, hmax⟩ := popScanAux_some st.pool
      (clientX - rectLeft) (clientY - rectTop) st.pool.length i hsome
    have hred : handlePointerDown st clientX clientY rectLeft rectTop
        = { st with
            pool := st.pool.eraseIdx i
            settings := { st.settings with
              particleCount := max 0 (st.settings.particleCount - 1) } } := by
      rw [handlePointerDown]
      simp only [hsome]
    refine ⟨hlt, hhit, hmax, ?_, ?_, ?_, ?_⟩ <;> rw [hred]
    · rw [List.length_eraseIdx, if_pos hlt]
  · intro hnone
    have hred : handlePointerDown st clientX clientY rectLeft rectTop
        = { st with dragging := true, lastMouseX := clientX } := by
      rw [handlePointerDown]
      simp only [hnone]
    exact ⟨popScanAux_none st.pool (clientX - rectLeft) (clientY - rectTop)
        st.pool.length hnone,
      by rw [hred], by rw [hred], by rw [hred], by rw [hred]⟩

/-- C6 witness: pressing at the exact centre of the only particle (radius
3, at (5,5)) pops it and decrements the count from 10 to 9. -/
theorem pointerDown_pop_or_drag_witness :
    popScan [(⟨5, 5, 3, 0, 0, 0.6⟩ : Particle)] (5 - 0) (5 - 0) = some 0
    ∧ (handlePointerDown
        ⟨[⟨5, 5, 3, 0, 0, 0.6⟩], ⟨10, 1, 4, 1.5, 0.5, 0.8, 0xffffff, 12⟩, false, 0⟩
        5 5 0 0).pool = []
    ∧ (handlePointerDown
        ⟨[⟨5, 5, 3, 0, 0, 0.6⟩], ⟨10, 1, 4, 1.5, 0.5, 0.8, 0xffffff, 12⟩, false, 0⟩
        5 5 0 0).settings.particleCount = 9 := by
  have hscan : popScan [(⟨5, 5, 3, 0, 0, 0.6⟩ : Particle)] (5 - 0) (5 - 0) = some 0 := by
    rw [popScan]
    show popScanAux _ _ _ 1 = some 0
    rw [popScanAux, if_pos]
    unfold hitTest
    norm_num [Real.sqrt_zero]
  obtain ⟨_, _, _, hpool, _, hcount, _⟩ :=
    (pointerDown_pop_or_drag
      ⟨[⟨5, 5, 3, 0, 0, 0.6⟩], ⟨10, 1, 4, 1.5, 0.5, 0.8, 0xffffff, 12⟩, false, 0⟩
      5 5 0 0).1 0 hscan
  refine ⟨hscan, ?_, ?_⟩
  · rw [hpool]; rfl
  · rw [hcount]; norm_num

/-- C7: on a pointer move while dragging, windSpeed is replaced by
clamp(previous + (clientX − lastX)·0.05, −15, 15) and lastMouseX becomes
clientX; the pool and the drag flag are untouched. -/
theorem pointerMove_wind_clamp (st : CanvasState) (clientX : ℝ)
    (hd : st.dragging = true) :
    (handlePointerMove st clientX).settings.windSpeed
      = max (-15) (min 15 (st.settings.windSpeed + (clientX - st.lastMouseX) * 0.05))
    ∧ (handlePointerMove st clientX).lastMouseX = clientX
    ∧ (handlePointerMove st clientX).pool = st.pool
    ∧ (handlePointerMove st clientX).dragging = st.dragging := by
  have hred : handlePointerMove st clientX
      = { st with
          lastMouseX := clientX
          settings := { st.settings with
            windSpeed := max (-15)
              (min 15 (st.settings.windSpeed + (clientX - st.lastMouseX) * 0.05)) } } := by
    rw [handlePointerMove, if_pos hd]
  exact ⟨by rw [hred], by rw [hred], by rw [hred], by rw [hred, hd]⟩

/-- C7 witness: dragging from lastMouseX = 0 to clientX = 100 with
windSpeed 12 gives 12 + 100·0.05 = 17, clamped to 15. -/
theorem pointerMove_wind_clamp_witness :
    (⟨[], ⟨10, 1, 4, 1.5, 12, 0.8, 0xffffff, 12⟩, true, 0⟩ : CanvasState).dragging = true
    ∧ (handlePointerMove
        ⟨[], ⟨10, 1, 4, 1.5, 12, 0.8, 0xffffff, 12⟩, true, 0⟩ 100).settings.windSpeed = 15
    ∧ (handlePointerMove
        ⟨[], ⟨10, 1, 4, 1.5, 12, 0.8, 0xffffff, 12⟩, true, 0⟩ 100).lastMouseX = 100 := by
  have h := pointerMove_wind_clamp
    ⟨[], ⟨10, 1, 4, 1.5, 12, 0.8, 0xffffff, 12⟩, true, 0⟩ 100 rfl
  refine ⟨rfl, ?_, h.2.1⟩
  rw [h.1]
  norm_num
